import Mathlib

/-!
Verification of the stream-supervisor program `scripts/start.py`.

The program manages a fleet of FFmpeg child processes: it builds the FFmpeg
argument list per stream declaration (`FFmpegProcess._build_command`), starts
and stops individual processes (`FFmpegProcess.start` / `stop` / `is_alive`),
starts all configured streams (`StreamManager.start_all_streams`), runs a
monitoring loop with a bounded-restart policy (`StreamManager.monitor_streams`),
and tears everything down on a shutdown signal (`StreamManager._signal_handler`
/ `cleanup`).

The embedding below models the OS-level effects (spawning a process, a process
exiting, graceful-stop timeouts) as explicit data supplied by the environment,
and the supervisor state (the `streams` dict) as an association list in
insertion order.
-/

namespace TestStreamer

/-- The `StreamType` enum of `start.py`: FILE, RTSP, RTMP, HLS, UDP. -/
inductive StreamType
  | file
  | rtsp
  | rtmp
  | hls
  | udp
deriving DecidableEq, Repr

/-- String form of a `StreamType` member, as Python's `str()` renders it in
the `ValueError` message of `_build_command`. -/
def streamTypeStr : StreamType → String
  | .file => "StreamType.FILE"
  | .rtsp => "StreamType.RTSP"
  | .rtmp => "StreamType.RTMP"
  | .hls => "StreamType.HLS"
  | .udp => "StreamType.UDP"

/-- The `StreamConfig` dataclass. `options` is a `Dict` in insertion order,
modelled as an association list; Python's `Optional[Dict] = None` and an empty
dict behave identically in `_build_command` (the `if self.config.options:`
guard skips both), so both are modelled as `[]`. -/
structure StreamConfig where
  name : String
  type : StreamType
  input : String
  output_path : String
  options : List (String × String)
deriving DecidableEq, Repr

/-- Abstraction of one spawned OS process (a `subprocess.Popen` object):
`exited` is true when `poll()` would return a non-`None` exit status;
`gracefulStop` is true when `wait(timeout=5)` after `terminate()` returns
without raising `TimeoutExpired`. -/
structure Proc where
  exited : Bool
  gracefulStop : Bool
deriving DecidableEq, Repr

/-- The `FFmpegProcess` handle: its `StreamConfig`, the RTSP server base URL,
the optional live-process reference `self.process`, and the restart
bookkeeping fields, exactly the attributes set in `__init__`. -/
structure FFmpegProcess where
  config : StreamConfig
  rtsp_server : String
  process : Option Proc
  last_restart : Nat
  max_restarts : Nat
  restart_count : Nat
  restart_interval : Nat
deriving DecidableEq, Repr

/-- `FFmpegProcess.__init__(config, rtsp_server)`: no process yet,
`max_restarts = 5`, `restart_count = 0`, `restart_interval = 60`. -/
def mkFFmpegProcess (config : StreamConfig) (rtsp_server : String) : FFmpegProcess :=
  { config := config
    rtsp_server := rtsp_server
    process := none
    last_restart := 0
    max_restarts := 5
    restart_count := 0
    restart_interval := 60 }

/-- The `for key, value in self.config.options.items():
base_command.extend([f"-{key}", str(value)])` loop: each mapping entry
contributes the pair `-<key>`, `<value>`, in mapping iteration order. -/
def optionArgs : List (String × String) → List String
  | [] => []
  | (k, v) :: rest => ("-" ++ k) :: v :: optionArgs rest

/-- `FFmpegProcess._build_command`: start from `['ffmpeg', '-re']`, extend
with the type-specific template (raising `ValueError` for types without a
template), then the custom options, then the output sink
`['-f', 'rtsp', f'{rtsp_server}/{output_path}']`. -/
def build_command (p : FFmpegProcess) : Except String (List String) :=
  let base : List String := ["ffmpeg", "-re"]
  let withType : Except String (List String) :=
    if p.config.type = .file then
      .ok (base ++ ["-stream_loop", "-1",
        "-i", p.config.input,
        "-c:v", "libx264",
        "-preset", "veryfast",
        "-c:a", "aac",
        "-b:v", "2M",
        "-bufsize", "4M",
        "-maxrate", "2.5M",
        "-g", "50",
        "-keyint_min", "25"])
    else if p.config.type = .rtsp then
      .ok (base ++ ["-rtsp_transport", "tcp",
        "-i", p.config.input,
        "-c", "copy",
        "-f", "rtsp",
        "-rtsp_transport", "tcp"])
    else if p.config.type = .rtmp then
      .ok (base ++ ["-i", p.config.input,
        "-c", "copy"])
    else
      .error ("Unsupported stream type: " ++ streamTypeStr p.config.type)
  match withType with
  | .error e => .error e
  | .ok cmd =>
      .ok (cmd ++ optionArgs p.config.options ++
        ["-f", "rtsp", p.rtsp_server ++ "/" ++ p.config.output_path])

/-- `FFmpegProcess.start`: builds the command, spawns. The spawn outcome is
supplied by the environment as `spawn : Option Proc` (`some pr` when
`subprocess.Popen` succeeds and yields process `pr`, `none` when `Popen`
raises). On either a `_build_command` `ValueError` or a `Popen` failure the
`except` clause returns `False` and the handle is left unchanged (in
particular `self.process` keeps its previous value). -/
def start (p : FFmpegProcess) (spawn : Option Proc) : Bool × FFmpegProcess :=
  match build_command p with
  | .error _ => (false, p)
  | .ok _ =>
      match spawn with
      | none => (false, p)
      | some pr => (true, { p with process := some pr })

/-- Outcome of one `stop()` call: `noop` when no process reference exists,
`graceful` when `wait(timeout=5)` returned in time, `forced` when the wait
raised `TimeoutExpired` and `kill()` was used. -/
inductive StopOutcome
  | noop
  | graceful
  | forced
deriving DecidableEq, Repr

/-- `FFmpegProcess.stop`: if a process reference exists, `terminate()` it,
wait up to 5 seconds, `kill()` on timeout (the `TimeoutExpired` handler), and
clear `self.process` in every case; with no process reference it does
nothing. Returns the updated handle together with the observable outcome. -/
def stopRun (p : FFmpegProcess) : FFmpegProcess × StopOutcome :=
  match p.process with
  | none => (p, StopOutcome.noop)
  | some pr =>
      if pr.gracefulStop then ({ p with process := none }, StopOutcome.graceful)
      else ({ p with process := none }, StopOutcome.forced)

/-- The state change of `FFmpegProcess.stop` (outcome discarded, as the
Python method returns `None`). -/
def stop (p : FFmpegProcess) : FFmpegProcess := (stopRun p).1

/-- `FFmpegProcess.is_alive`: `self.process is not None and
self.process.poll() is None`. -/
def is_alive (p : FFmpegProcess) : Bool :=
  match p.process with
  | none => false
  | some pr => !pr.exited

/-- One raw entry of the `streams` list of the YAML document, before
`start_all_streams` turns it into a `StreamConfig`. The required keys are
`Option`-valued because a missing key makes the corresponding `dict` access
raise `KeyError`; `options` comes from `.get('options')`, which never
raises. -/
structure RawStream where
  name : Option String
  type : Option String
  input : Option String
  output_path : Option String
  options : List (String × String)
deriving DecidableEq, Repr

/-- The ASCII fragment of Python's `str.upper()`, applied char-wise. It
agrees with `str.upper()` exactly on ASCII strings; on non-ASCII input the
two can differ (`str.upper()` performs Unicode mappings, including
multi-character expansions such as the fi-ligature becoming `FI`), so
theorems about declaration parsing are scoped via `asciiType` to declaration
sets whose `type` tags are ASCII. -/
def pyUpper (s : String) : String := String.mk (s.data.map Char.toUpper)

/-- Scope marker for the `pyUpper` model: the declaration's `type` tag, when
present, consists of ASCII characters only. On such tags `pyUpper` coincides
with Python's `str.upper()`, so the enum-lookup model is exact. -/
def asciiType (raw : RawStream) : Bool :=
  match raw.type with
  | none => true
  | some t => t.data.all fun c => c.toNat < 128

/-- The enum lookup `StreamType[raw_type.upper()]`: `some` member on a
matching name, `none` when the lookup raises `KeyError`. -/
def parseStreamType (s : String) : Option StreamType :=
  if pyUpper s = "FILE" then some .file
  else if pyUpper s = "RTSP" then some .rtsp
  else if pyUpper s = "RTMP" then some .rtmp
  else if pyUpper s = "HLS" then some .hls
  else if pyUpper s = "UDP" then some .udp
  else none

/-- The `StreamConfig(...)` construction inside `start_all_streams`'s `try`
block: `none` when the construction raises — a missing required key raises
`KeyError` at the dict access, an unknown type makes the enum lookup raise
`KeyError`. Which of these exceptions is survivable is decided by the
`except` handler, modelled inside `start_all_streams`: the handler's logging
f-string re-reads `stream_config['name']`, so when `name` itself is missing
the handler re-raises instead of skipping. -/
def mkStreamConfig (raw : RawStream) : Option StreamConfig :=
  match raw.name, raw.type, raw.input, raw.output_path with
  | some n, some t, some i, some o =>
      match parseStreamType t with
      | some st =>
          some { name := n, type := st, input := i, output_path := o,
                 options := raw.options }
      | none => none
  | _, _, _, _ => none

/-- How `start_all_streams` can end: `completed` when the loop ran over every
declaration, `aborted` when an exception escaped the per-stream `except`
handler (a declaration missing its `name` key: the handler's f-string
re-reads `stream_config['name']` and the re-raised `KeyError` propagates out
of `start_all_streams`). Both carry the tracking map built up to that point,
in insertion order. -/
inductive StartupOutcome
  | completed (streams : List (String × FFmpegProcess))
  | aborted (streams : List (String × FFmpegProcess))
deriving DecidableEq, Repr

/-- Register one handle in front of the rest of the run's tracking map,
whatever way the run ends. -/
def StartupOutcome.consReg (nh : String × FFmpegProcess) : StartupOutcome → StartupOutcome
  | .completed s => .completed (nh :: s)
  | .aborted s => .aborted (nh :: s)

/-- What `main` does with the startup outcome: on `completed` it proceeds
into the infinite `monitor_streams` loop (no exit), on `aborted` the escaped
`KeyError` reaches `main`'s `except` handler, which logs a fatal error and
calls `sys.exit(1)`. -/
def main_exit_code : StartupOutcome → Option Nat
  | .completed _ => none
  | .aborted _ => some 1

/-- `StreamManager.start_all_streams`: for each raw entry in declaration
order, run the `try` block (`StreamConfig` construction, handle creation,
`start()`, and insertion into `self.streams` only when `start()` returned
`True`). When the construction raises, the `except` handler's f-string
re-reads `stream_config['name']`: if `name` is present the error is logged
and the entry skipped with siblings proceeding, but if `name` is missing the
handler itself raises `KeyError`, which escapes the loop — later
declarations are never attempted and `main` exits with status 1. `env name`
supplies the spawn outcome for the attempt on stream `name`. -/
def start_all_streams (env : String → Option Proc) (rtsp_server : String) :
    List RawStream → StartupOutcome
  | [] => StartupOutcome.completed []
  | raw :: rest =>
      match mkStreamConfig raw with
      | none =>
          match raw.name with
          | none => StartupOutcome.aborted []
          | some _ => start_all_streams env rtsp_server rest
      | some cfg =>
          let r := start (mkFFmpegProcess cfg rtsp_server) (env cfg.name)
          if r.1 then
            StartupOutcome.consReg (cfg.name, r.2) (start_all_streams env rtsp_server rest)
          else start_all_streams env rtsp_server rest

/-- The body of `monitor_streams` for a single tracked stream on one polling
tick: if the stream is not alive and `restart_count < max_restarts`,
increment `restart_count` and call `start()` (its return value is discarded);
otherwise leave the handle untouched. The boolean records whether `start()`
was called. -/
def monitor_step (spawn : Option Proc) (p : FFmpegProcess) : FFmpegProcess × Bool :=
  if is_alive p then (p, false)
  else if p.restart_count < p.max_restarts then
    ((start { p with restart_count := p.restart_count + 1 } spawn).2, true)
  else (p, false)

/-- One full iteration of the `while True` loop of `monitor_streams`: apply
`monitor_step` to every tracked stream in mapping order. -/
def monitor_tick (env : String → Option Proc) (streams : List (String × FFmpegProcess)) :
    List (String × FFmpegProcess) :=
  streams.map fun nh => (nh.1, (monitor_step (env nh.1) nh.2).1)

/-- A spawned process exiting on its own (observed by a later `poll()`). -/
def procDie (pr : Proc) : Proc := { pr with exited := true }

/-- One step of the supervisor's world: either a polling tick of
`monitor_streams` (with `env` giving each restart attempt's spawn outcome),
or the environment letting some subset of the child processes die between
ticks. -/
inductive SupStep
  | tick (env : String → Option Proc)
  | die (dies : String → Bool)

/-- Effect of one `SupStep` on a single tracked entry. -/
def step_entry (st : SupStep) (nh : String × FFmpegProcess) : String × FFmpegProcess :=
  match st with
  | .tick env => (nh.1, (monitor_step (env nh.1) nh.2).1)
  | .die dies =>
      (nh.1, if dies nh.1 then { nh.2 with process := nh.2.process.map procDie } else nh.2)

/-- Effect of one `SupStep` on the whole tracking map. -/
def apply_step (st : SupStep) (streams : List (String × FFmpegProcess)) :
    List (String × FFmpegProcess) :=
  streams.map (step_entry st)

/-- Any finite run of the monitoring loop interleaved with process deaths. -/
def run_steps (steps : List SupStep) (streams : List (String × FFmpegProcess)) :
    List (String × FFmpegProcess) :=
  steps.foldl (fun s st => apply_step st s) streams

/-- The trajectory of a single tracked entry through a run. -/
def run_entry : List SupStep → (String × FFmpegProcess) → String × FFmpegProcess
  | [], nh => nh
  | st :: rest, nh => run_entry rest (step_entry st nh)

/-- Whether one step calls `start()` on the given entry. -/
def step_attempts (st : SupStep) (nh : String × FFmpegProcess) : Bool :=
  match st with
  | .tick env => (monitor_step (env nh.1) nh.2).2
  | .die _ => false

/-- Number of `start()` calls a run makes on the given entry. -/
def entry_attempts : List SupStep → (String × FFmpegProcess) → Nat
  | [], _ => 0
  | st :: rest, nh =>
      (if step_attempts st nh then 1 else 0) + entry_attempts rest (step_entry st nh)

/-- `StreamManager.cleanup`: call `stop()` on every tracked handle, in
mapping order. -/
def cleanup (streams : List (String × FFmpegProcess)) : List (String × FFmpegProcess) :=
  streams.map fun nh => (nh.1, stop nh.2)

/-- The sequence of `stop()` attempts `cleanup` makes, in mapping order,
with each attempt's observable outcome. -/
def cleanup_trace (streams : List (String × FFmpegProcess)) : List (String × StopOutcome) :=
  streams.map fun nh => (nh.1, (stopRun nh.2).2)

/-- `StreamManager._signal_handler`: run `cleanup()` then `sys.exit(0)`.
Returns the final tracking map and the process exit status. -/
def signal_handler (streams : List (String × FFmpegProcess)) :
    List (String × FFmpegProcess) × Nat :=
  (cleanup streams, 0)

/-! ### Concrete fixtures used by witnesses and counterexamples -/

/-- The `cam1` file stream of the spec's scenario. -/
def cam1Config : StreamConfig :=
  { name := "cam1", type := .file, input := "/media/loop.mp4",
    output_path := "cam1/stream", options := [] }

/-- The raw YAML entry for `cam1`, with every required key present. -/
def cam1Raw : RawStream :=
  { name := some "cam1", type := some "file", input := some "/media/loop.mp4",
    output_path := some "cam1/stream", options := [] }

/-- A freshly constructed handle for `cam1`. -/
def cam1Handle : FFmpegProcess := mkFFmpegProcess cam1Config "rtsp://mediamtx:8554"

/-- A raw entry whose `name` key is missing: reading it in the `except`
handler re-raises `KeyError`, aborting startup. -/
def namelessRaw : RawStream :=
  { name := none, type := some "file", input := some "/media/b.mp4",
    output_path := some "b/stream", options := [] }

/-- A well-formed rtmp declaration placed after the name-less entry in the
C1 witness: the program never reaches it. -/
def cam5Raw : RawStream :=
  { name := some "cam5", type := some "rtmp", input := some "rtmp://origin/app/key",
    output_path := some "cam5/stream", options := [] }

/-- An RTSP relay stream carrying custom options. -/
def cam2Handle : FFmpegProcess :=
  mkFFmpegProcess
    { name := "cam2", type := .rtsp, input := "rtsp://cam.local/live",
      output_path := "cam2/stream", options := [("rtsp_transport", "udp"), ("threads", "2")] }
    "rtsp://mediamtx:8554"

/-- An HLS stream, which has no command template. -/
def hlsHandle : FFmpegProcess :=
  mkFFmpegProcess
    { name := "cam3", type := .hls, input := "http://origin/playlist.m3u8",
      output_path := "cam3/stream", options := [] }
    "rtsp://mediamtx:8554"

/-- An RTMP relay stream. -/
def rtmpHandle : FFmpegProcess :=
  mkFFmpegProcess
    { name := "cam4", type := .rtmp, input := "rtmp://origin/app/key",
      output_path := "cam4/stream", options := [] }
    "rtsp://mediamtx:8554"

/-- A handle whose recorded process has exited (a dead stream). -/
def deadHandle : FFmpegProcess :=
  { cam1Handle with process := some { exited := true, gracefulStop := true } }

/-- A handle whose recorded process is still running. -/
def aliveHandle : FFmpegProcess :=
  { cam1Handle with process := some { exited := false, gracefulStop := true } }

/-- A dead handle that has used up all of its restarts. -/
def exhaustedHandle : FFmpegProcess := { deadHandle with restart_count := 5 }

/-- A short supervisor run: one tick with every spawn failing, a round of
process deaths, and one tick with every spawn succeeding. -/
def sampleSteps : List SupStep :=
  [SupStep.tick (fun _ => none),
   SupStep.die (fun _ => true),
   SupStep.tick (fun _ => some { exited := false, gracefulStop := true })]

/-! ### Shared helper lemmas -/

theorem start_restart_count (p : FFmpegProcess) (sp : Option Proc) :
    (start p sp).2.restart_count = p.restart_count := by
  cases hb : build_command p <;> cases sp <;> simp [start, hb]

theorem start_max_restarts (p : FFmpegProcess) (sp : Option Proc) :
    (start p sp).2.max_restarts = p.max_restarts := by
  cases hb : build_command p <;> cases sp <;> simp [start, hb]

theorem start_none (p : FFmpegProcess) : start p none = (false, p) := by
  cases hb : build_command p <;> simp [start, hb]

theorem monitor_step_max_restarts (sp : Option Proc) (p : FFmpegProcess) :
    (monitor_step sp p).1.max_restarts = p.max_restarts := by
  unfold monitor_step
  split
  · rfl
  split
  · rw [start_max_restarts]
  · rfl

theorem monitor_step_count (sp : Option Proc) (p : FFmpegProcess) :
    (monitor_step sp p).1.restart_count = p.restart_count ∨
    ((monitor_step sp p).1.restart_count = p.restart_count + 1 ∧
      p.restart_count < p.max_restarts) := by
  unfold monitor_step
  split
  · exact Or.inl rfl
  split
  · refine Or.inr ⟨?_, by assumption⟩
    rw [start_restart_count]
  · exact Or.inl rfl

theorem monitor_step_exhausted (sp : Option Proc) (p : FFmpegProcess)
    (h : p.max_restarts ≤ p.restart_count) :
    monitor_step sp p = (p, false) := by
  unfold monitor_step
  split
  · rfl
  split
  · exact absurd ‹p.restart_count < p.max_restarts› (by omega)
  · rfl

theorem step_entry_name (st : SupStep) (nh : String × FFmpegProcess) :
    (step_entry st nh).1 = nh.1 := by
  cases st <;> rfl

theorem step_entry_max_restarts (st : SupStep) (nh : String × FFmpegProcess) :
    (step_entry st nh).2.max_restarts = nh.2.max_restarts := by
  cases st with
  | tick env => exact monitor_step_max_restarts _ _
  | die dies =>
      simp only [step_entry]
      split <;> rfl

theorem step_entry_count_le (st : SupStep) (nh : String × FFmpegProcess)
    (h : nh.2.restart_count ≤ nh.2.max_restarts) :
    (step_entry st nh).2.restart_count ≤ nh.2.max_restarts := by
  cases st with
  | tick env =>
      show (monitor_step (env nh.1) nh.2).1.restart_count ≤ nh.2.max_restarts
      rcases monitor_step_count (env nh.1) nh.2 with h1 | ⟨h1, h2⟩
      · rw [h1]; exact h
      · rw [h1]; omega
  | die dies =>
      simp only [step_entry]
      split <;> exact h

theorem step_entry_exhausted (st : SupStep) (nh : String × FFmpegProcess)
    (h : nh.2.restart_count = nh.2.max_restarts) :
    (step_entry st nh).2.restart_count = nh.2.restart_count ∧
    step_attempts st nh = false := by
  cases st with
  | tick env =>
      have hm := monitor_step_exhausted (env nh.1) nh.2 (le_of_eq h.symm)
      constructor
      · show (monitor_step (env nh.1) nh.2).1.restart_count = _
        rw [hm]
      · show (monitor_step (env nh.1) nh.2).2 = false
        rw [hm]
  | die dies =>
      refine ⟨?_, rfl⟩
      simp only [step_entry]
      split <;> rfl

theorem run_entry_count_le (steps : List SupStep) :
    ∀ nh : String × FFmpegProcess, nh.2.restart_count ≤ nh.2.max_restarts →
      (run_entry steps nh).2.restart_count ≤ (run_entry steps nh).2.max_restarts := by
  induction steps with
  | nil => intro nh h; exact h
  | cons st rest ih =>
      intro nh h
      show (run_entry rest (step_entry st nh)).2.restart_count ≤ _
      apply ih
      rw [step_entry_max_restarts]
      exact step_entry_count_le st nh h

theorem run_entry_max_restarts (steps : List SupStep) :
    ∀ nh : String × FFmpegProcess,
      (run_entry steps nh).2.max_restarts = nh.2.max_restarts := by
  induction steps with
  | nil => intro nh; rfl
  | cons st rest ih =>
      intro nh
      show (run_entry rest (step_entry st nh)).2.max_restarts = _
      rw [ih, step_entry_max_restarts]

theorem run_entry_exhausted (steps : List SupStep) :
    ∀ nh : String × FFmpegProcess, nh.2.restart_count = nh.2.max_restarts →
      (run_entry steps nh).2.restart_count = nh.2.max_restarts ∧
      entry_attempts steps nh = 0 := by
  induction steps with
  | nil => intro nh h; exact ⟨h, rfl⟩
  | cons st rest ih =>
      intro nh h
      obtain ⟨hc, ha⟩ := step_entry_exhausted st nh h
      have hmax := step_entry_max_restarts st nh
      obtain ⟨ih1, ih2⟩ := ih (step_entry st nh) (by rw [hc, hmax, h])
      constructor
      · show (run_entry rest (step_entry st nh)).2.restart_count = _
        rw [ih1, hmax]
      · show (if step_attempts st nh then 1 else 0) + entry_attempts rest (step_entry st nh) = 0
        rw [ha, ih2]
        rfl

theorem run_steps_eq_map (steps : List SupStep) :
    ∀ streams : List (String × FFmpegProcess),
      run_steps steps streams = streams.map (run_entry steps) := by
  induction steps with
  | nil =>
      intro streams
      have h : run_entry ([] : List SupStep) = id := funext fun nh => rfl
      simp [run_steps, h]
  | cons st rest ih =>
      intro streams
      show run_steps rest (apply_step st streams) = _
      rw [ih]
      have h : run_entry rest ∘ step_entry st = run_entry (st :: rest) :=
        funext fun nh => rfl
      rw [apply_step, List.map_map, h]

theorem stop_process_eq (p : FFmpegProcess) : (stop p).process = none := by
  rcases hp : p.process with _ | pr
  · simp [stop, stopRun, hp]
  · by_cases hg : pr.gracefulStop <;> simp [stop, stopRun, hp, hg]

theorem is_alive_stop (p : FFmpegProcess) : is_alive (stop p) = false := by
  rw [is_alive, stop_process_eq]

theorem run_entry_name (steps : List SupStep) :
    ∀ nh : String × FFmpegProcess, (run_entry steps nh).1 = nh.1 := by
  induction steps with
  | nil => intro nh; rfl
  | cons st rest ih =>
      intro nh
      show (run_entry rest (step_entry st nh)).1 = _
      rw [ih, step_entry_name]

/-- The type-specific argument template of `_build_command`, isolated from
the surrounding command assembly (empty for the types the builder rejects,
which never reach the assembly step). -/
def type_template (t : StreamType) (input : String) : List String :=
  match t with
  | .file =>
      ["-stream_loop", "-1",
       "-i", input,
       "-c:v", "libx264",
       "-preset", "veryfast",
       "-c:a", "aac",
       "-b:v", "2M",
       "-bufsize", "4M",
       "-maxrate", "2.5M",
       "-g", "50",
       "-keyint_min", "25"]
  | .rtsp =>
      ["-rtsp_transport", "tcp",
       "-i", input,
       "-c", "copy",
       "-f", "rtsp",
       "-rtsp_transport", "tcp"]
  | .rtmp =>
      ["-i", input,
       "-c", "copy"]
  | .hls => []
  | .udp => []

theorem build_command_supported (p : FFmpegProcess)
    (h : p.config.type = .file ∨ p.config.type = .rtsp ∨ p.config.type = .rtmp) :
    build_command p =
      .ok (["ffmpeg", "-re"] ++ type_template p.config.type p.config.input
        ++ optionArgs p.config.options
        ++ ["-f", "rtsp", p.rtsp_server ++ "/" ++ p.config.output_path]) := by
  rcases h with h | h | h <;> simp [build_command, type_template, h]

/-! ### Claim theorems -/

/-- C5: for every declaration with sourceType `file`, the built command
contains the contiguous block `-stream_loop -1 -i <input>` followed directly
by the fixed transcode template, and ends with the output sink
`-f rtsp <serverBase>/<outputPath>`. -/
theorem file_command_loops_input_and_ends_with_sink (p : FFmpegProcess)
    (h : p.config.type = .file) :
    ∃ cmd, build_command p = .ok cmd ∧
      ["-stream_loop", "-1", "-i", p.config.input, "-c:v", "libx264",
       "-preset", "veryfast", "-c:a", "aac", "-b:v", "2M", "-bufsize", "4M",
       "-maxrate", "2.5M", "-g", "50", "-keyint_min", "25"] <:+: cmd ∧
      ["-f", "rtsp", p.rtsp_server ++ "/" ++ p.config.output_path] <:+ cmd := by
  refine ⟨_, build_command_supported p (Or.inl h), ?_, ?_⟩
  · refine ⟨["ffmpeg", "-re"],
      optionArgs p.config.options ++
        ["-f", "rtsp", p.rtsp_server ++ "/" ++ p.config.output_path], ?_⟩
    rw [h]
    simp [type_template]
  · exact ⟨["ffmpeg", "-re"] ++ type_template p.config.type p.config.input
      ++ optionArgs p.config.options, by simp⟩

/-- C5 witness: the `cam1` scenario, evaluated at the concrete declaration of
the spec (`file`, input `/media/loop.mp4`, output `cam1/stream`). -/
theorem file_command_loops_input_witness :
    ∃ cmd, build_command cam1Handle = .ok cmd ∧
      ["-stream_loop", "-1", "-i", "/media/loop.mp4", "-c:v", "libx264",
       "-preset", "veryfast", "-c:a", "aac", "-b:v", "2M", "-bufsize", "4M",
       "-maxrate", "2.5M", "-g", "50", "-keyint_min", "25"] <:+: cmd ∧
      ["-f", "rtsp", "rtsp://mediamtx:8554" ++ "/" ++ "cam1/stream"] <:+ cmd :=
  file_command_loops_input_and_ends_with_sink cam1Handle rfl

/-- C6: the Command Builder fails with the unsupported-source-type error for
`hls` and `udp`, and never raises it for `file`, `rtsp` or `rtmp`. -/
theorem unsupported_types_error (p : FFmpegProcess) :
    ((p.config.type = .hls ∨ p.config.type = .udp) →
      build_command p =
        .error ("Unsupported stream type: " ++ streamTypeStr p.config.type)) ∧
    ((p.config.type = .file ∨ p.config.type = .rtsp ∨ p.config.type = .rtmp) →
      ∃ cmd, build_command p = .ok cmd) := by
  constructor
  · intro h
    rcases h with h | h <;> simp [build_command, h]
  · intro h
    exact ⟨_, build_command_supported p h⟩

/-- C6 witness: an `hls` declaration is rejected while an `rtmp` declaration
builds a command. -/
theorem unsupported_types_error_witness :
    build_command hlsHandle =
      .error ("Unsupported stream type: " ++ streamTypeStr StreamType.hls) ∧
    ∃ cmd, build_command rtmpHandle = .ok cmd :=
  ⟨(unsupported_types_error hlsHandle).1 (Or.inl rfl),
   (unsupported_types_error rtmpHandle).2 (Or.inr (Or.inr rfl))⟩

/-- C7: for every supported sourceType and any options mapping, the built
command is exactly the type-specific template, then the `-<key> <value>`
pairs in mapping order, then the sink `-f rtsp <serverBase>/<outputPath>` as
the final arguments. -/
theorem options_after_template_before_sink (p : FFmpegProcess)
    (h : p.config.type = .file ∨ p.config.type = .rtsp ∨ p.config.type = .rtmp) :
    build_command p =
      .ok (["ffmpeg", "-re"] ++ type_template p.config.type p.config.input
        ++ optionArgs p.config.options
        ++ ["-f", "rtsp", p.rtsp_server ++ "/" ++ p.config.output_path]) :=
  build_command_supported p h

/-- C7 witness: an `rtsp` relay with a two-entry options mapping. -/
theorem options_after_template_witness :
    build_command cam2Handle =
      .ok (["ffmpeg", "-re"] ++ type_template StreamType.rtsp "rtsp://cam.local/live"
        ++ optionArgs [("rtsp_transport", "udp"), ("threads", "2")]
        ++ ["-f", "rtsp", "rtsp://mediamtx:8554" ++ "/" ++ "cam2/stream"]) :=
  options_after_template_before_sink cam2Handle (Or.inr (Or.inl rfl))

/-- C10: for every supported sourceType the built command begins with the
executable name `ffmpeg` immediately followed by the real-time pacing flag
`-re`, uniformly across file, rtsp and rtmp. -/
theorem command_begins_with_realtime_flag (p : FFmpegProcess)
    (h : p.config.type = .file ∨ p.config.type = .rtsp ∨ p.config.type = .rtmp) :
    ∃ rest, build_command p = .ok ("ffmpeg" :: "-re" :: rest) :=
  ⟨_, build_command_supported p h⟩

/-- C10 witness: the rtsp stream-copy relay is also paced with `-re`. -/
theorem command_begins_with_realtime_flag_witness :
    ∃ rest, build_command cam2Handle = .ok ("ffmpeg" :: "-re" :: rest) :=
  command_begins_with_realtime_flag cam2Handle (Or.inr (Or.inl rfl))

/-- C8: `stop()` is idempotent: a second call changes nothing, a call with no
live-process reference is a no-op (and reports `noop`), and after any call
the handle holds no process reference and `is_alive()` is false. -/
theorem stop_idempotent (p : FFmpegProcess) :
    stop (stop p) = stop p ∧
    (p.process = none → stop p = p) ∧
    (stop p).process = none ∧
    is_alive (stop p) = false ∧
    (stopRun (stop p)).2 = StopOutcome.noop := by
  have h2 : (stop p).process = none := stop_process_eq p
  have hid : ∀ q : FFmpegProcess, q.process = none → stop q = q := by
    intro q hq
    simp [stop, stopRun, hq]
  refine ⟨hid (stop p) h2, hid p, h2, is_alive_stop p, ?_⟩
  simp [stopRun, h2]

/-- C8 witness: a no-process handle passes through `stop()` unchanged, and a
handle with a live process is cleared. -/
theorem stop_idempotent_witness :
    stop cam1Handle = cam1Handle ∧ (stop aliveHandle).process = none :=
  ⟨(stop_idempotent cam1Handle).2.1 rfl, (stop_idempotent aliveHandle).2.2.1⟩

/-- C9: when the spawn fails, `start()` returns `False` instead of raising
and the handle is left unchanged, so a handle that held no live process
before the attempt still holds none afterwards. -/
theorem start_spawn_failure_is_contained (p : FFmpegProcess) :
    start p none = (false, p) ∧
    (is_alive p = false → is_alive (start p none).2 = false) := by
  refine ⟨start_none p, fun h => ?_⟩
  rw [start_none p]
  exact h

/-- C9 witness: a restart attempt on a handle still holding the dead process
reference of an earlier run: the failed spawn returns `False` and leaves no
live process. -/
theorem start_spawn_failure_witness :
    start deadHandle none = (false, deadHandle) ∧
    is_alive (start deadHandle none).2 = false :=
  ⟨(start_spawn_failure_is_contained deadHandle).1,
   (start_spawn_failure_is_contained deadHandle).2 (by decide)⟩

/-- C3: `cleanup()` attempts `stop()` on every tracked stream in mapping
order regardless of each attempt's outcome, afterwards every tracked handle
holds no process reference, and the signal handler then exits with status 0. -/
theorem cleanup_stops_every_stream (streams : List (String × FFmpegProcess)) :
    (cleanup_trace streams).map Prod.fst = streams.map Prod.fst ∧
    ((cleanup streams).all fun nh => nh.2.process.isNone && !(is_alive nh.2)) = true ∧
    signal_handler streams = (cleanup streams, 0) := by
  refine ⟨?_, ?_, rfl⟩
  · rw [cleanup_trace, List.map_map]
    have h : (Prod.fst ∘ fun nh : String × FFmpegProcess => (nh.1, (stopRun nh.2).2)) =
        Prod.fst := funext fun nh => rfl
    rw [h]
  · rw [cleanup, List.all_eq_true]
    intro nh hmem
    rcases List.mem_map.mp hmem with ⟨mh, hm, rfl⟩
    simp [stop_process_eq, is_alive_stop]

/-- C4: on one polling tick, a tracked stream that is not alive with
`restart_count < max_restarts` has its counter incremented by exactly one and
`start()` called (the increment sticks whatever the spawn outcome, since the
tick is quantified over every possible spawn result), while a stream that is
alive is left untouched with no `start()` call; the tick applies this rule to
every tracked entry. -/
theorem monitor_tick_transition_rule (env : String → Option Proc)
    (streams : List (String × FFmpegProcess)) (nh : String × FFmpegProcess) :
    (nh ∈ streams →
      (nh.1, (monitor_step (env nh.1) nh.2).1) ∈ monitor_tick env streams) ∧
    (is_alive nh.2 = false → nh.2.restart_count < nh.2.max_restarts →
      (monitor_step (env nh.1) nh.2).1.restart_count = nh.2.restart_count + 1 ∧
      (monitor_step (env nh.1) nh.2).2 = true) ∧
    (is_alive nh.2 = true → monitor_step (env nh.1) nh.2 = (nh.2, false)) := by
  refine ⟨fun hmem => ?_, fun hdead hlt => ?_, fun halive => ?_⟩
  · exact List.mem_map_of_mem _ hmem
  · have hms : monitor_step (env nh.1) nh.2 =
        ((start { nh.2 with restart_count := nh.2.restart_count + 1 } (env nh.1)).2, true) := by
      simp [monitor_step, hdead, hlt]
    rw [hms]
    exact ⟨start_restart_count _ _, rfl⟩
  · simp [monitor_step, halive]

/-- C4 witness: with a failing spawn, a dead stream's counter moves from 0 to
1 while an alive stream is untouched; the dead entry is processed by the
tick. -/
theorem monitor_tick_transition_rule_witness :
    (monitor_step none deadHandle).1.restart_count = deadHandle.restart_count + 1 ∧
    monitor_step none aliveHandle = (aliveHandle, false) ∧
    ("cam1", (monitor_step none deadHandle).1) ∈
      monitor_tick (fun _ => none) [("cam1", deadHandle)] := by
  refine ⟨?_, ?_, ?_⟩
  · exact ((monitor_tick_transition_rule (fun _ => none) [] ("cam1", deadHandle)).2.1
      (by decide) (by decide)).1
  · exact (monitor_tick_transition_rule (fun _ => none) [] ("cam1", aliveHandle)).2.2
      (by decide)
  · exact (monitor_tick_transition_rule (fun _ => none) [("cam1", deadHandle)]
      ("cam1", deadHandle)).1 (by simp)

/-- C2: along any finite interleaving of polling ticks and process deaths, a
tracked stream's `restart_count` never exceeds its `max_restarts`; once the
counter equals `max_restarts` it never changes again and `start()` is never
called on that stream again; and every step processes the whole tracking map
entrywise, so the supervisor keeps monitoring the other streams. -/
theorem restart_count_bounded_and_exhaustion_terminal (steps : List SupStep)
    (nh : String × FFmpegProcess) :
    (nh.2.restart_count ≤ nh.2.max_restarts →
      (run_entry steps nh).2.restart_count ≤ (run_entry steps nh).2.max_restarts) ∧
    (nh.2.restart_count = nh.2.max_restarts →
      (run_entry steps nh).2.restart_count = nh.2.max_restarts ∧
      entry_attempts steps nh = 0) ∧
    ∀ streams : List (String × FFmpegProcess),
      run_steps steps streams = streams.map (run_entry steps) ∧
      (run_steps steps streams).map Prod.fst = streams.map Prod.fst := by
  refine ⟨run_entry_count_le steps nh, run_entry_exhausted steps nh,
    fun streams => ⟨run_steps_eq_map steps streams, ?_⟩⟩
  rw [run_steps_eq_map steps streams, List.map_map]
  have h : (Prod.fst ∘ run_entry steps) = Prod.fst :=
    funext fun x => run_entry_name steps x
  rw [h]

/-- C2 witness: an exhausted stream (counter at the bound 5) run through a
concrete tick/die/tick sequence keeps its counter at 5 with zero start
attempts. -/
theorem restart_count_bounded_witness :
    (run_entry sampleSteps ("cam1", exhaustedHandle)).2.restart_count ≤
      (run_entry sampleSteps ("cam1", exhaustedHandle)).2.max_restarts ∧
    (run_entry sampleSteps ("cam1", exhaustedHandle)).2.restart_count = 5 ∧
    entry_attempts sampleSteps ("cam1", exhaustedHandle) = 0 := by
  refine ⟨(restart_count_bounded_and_exhaustion_terminal sampleSteps
    ("cam1", exhaustedHandle)).1 (by decide), ?_⟩
  exact (restart_count_bounded_and_exhaustion_terminal sampleSteps
    ("cam1", exhaustedHandle)).2.1 (by decide)

/-- C1 counterexample: a well-formed `file` declaration whose initial spawn
fails is not registered in the tracking map at all — `start_all_streams`
inserts a handle only when `start()` returns `True` — so contrary to the
claim it does not remain tracked as a restart candidate. -/
theorem failed_start_not_tracked :
    mkStreamConfig cam1Raw = some cam1Config ∧
    start_all_streams (fun _ => none) "rtsp://mediamtx:8554" [cam1Raw] =
      StartupOutcome.completed [] := by
  constructor
  · rfl
  · rfl

/-- What one raw declaration contributes to the tracking map when the loop
passes over it without aborting: its handle under its name when it is
well-formed and its initial `start()` returned `True`, nothing otherwise. -/
def startAllOutcome (env : String → Option Proc) (rtsp_server : String)
    (raw : RawStream) : Option (String × FFmpegProcess) :=
  match mkStreamConfig raw with
  | none => none
  | some cfg =>
      let r := start (mkFFmpegProcess cfg rtsp_server) (env cfg.name)
      if r.1 then some (cfg.name, r.2) else none

theorem mkStreamConfig_name_none (raw : RawStream) (h : raw.name = none) :
    mkStreamConfig raw = none := by
  simp [mkStreamConfig, h]

theorem start_all_streams_completed (env : String → Option Proc) (base : String) :
    ∀ raws : List RawStream, (raws.all fun raw => raw.name.isSome) = true →
      start_all_streams env base raws =
        StartupOutcome.completed (raws.filterMap (startAllOutcome env base)) := by
  intro raws
  induction raws with
  | nil => intro _; rfl
  | cons raw rest ih =>
      intro h
      rw [List.all_cons, Bool.and_eq_true] at h
      obtain ⟨h1, h2⟩ := h
      rw [List.filterMap_cons]
      cases hc : mkStreamConfig raw with
      | none =>
          cases hn : raw.name with
          | none => simp [hn] at h1
          | some n => simp [start_all_streams, startAllOutcome, hc, hn, ih h2]
      | some cfg =>
          by_cases hr : (start (mkFFmpegProcess cfg base) (env cfg.name)).1
          · simp [start_all_streams, startAllOutcome, hc, hr, ih h2,
              StartupOutcome.consReg]
          · simp [start_all_streams, startAllOutcome, hc, hr, ih h2]

theorem start_all_streams_aborted (env : String → Option Proc) (base : String)
    (post : List RawStream) (bad : RawStream) (hbad : bad.name = none) :
    ∀ pre : List RawStream, (pre.all fun raw => raw.name.isSome) = true →
      start_all_streams env base (pre ++ bad :: post) =
        StartupOutcome.aborted (pre.filterMap (startAllOutcome env base)) := by
  intro pre
  induction pre with
  | nil =>
      intro _
      have hc := mkStreamConfig_name_none bad hbad
      simp [start_all_streams, hc, hbad]
  | cons raw rest ih =>
      intro h
      rw [List.all_cons, Bool.and_eq_true] at h
      obtain ⟨h1, h2⟩ := h
      rw [List.cons_append, List.filterMap_cons]
      cases hc : mkStreamConfig raw with
      | none =>
          cases hn : raw.name with
          | none => simp [hn] at h1
          | some n => simp [start_all_streams, startAllOutcome, hc, hn, ih h2]
      | some cfg =>
          by_cases hr : (start (mkFFmpegProcess cfg base) (env cfg.name)).1
          · simp [start_all_streams, startAllOutcome, hc, hr, ih h2,
              StartupOutcome.consReg]
          · simp [start_all_streams, startAllOutcome, hc, hr, ih h2]

/-- C1 (amended): over declaration sets whose `type` tags are ASCII (where
the case-mapping model is exact), `start_all_streams` registers a
declaration's handle exactly when the declaration is well-formed and its
initial `start()` attempt returned success — a well-formed declaration whose
initial start failed is skipped like a malformed one and is not a restart
candidate — provided every declaration carries its `name` key; a declaration
missing `name` makes the `except` handler itself raise, aborting startup:
the earlier registrations stand, the later declarations are never attempted,
and `main` exits with status 1. -/
theorem start_all_streams_registers_iff_start_succeeded
    (env : String → Option Proc) (base : String) :
    (∀ raws : List RawStream,
      (raws.all fun raw => raw.name.isSome) = true →
      (raws.all asciiType) = true →
      start_all_streams env base raws =
        StartupOutcome.completed (raws.filterMap (startAllOutcome env base))) ∧
    (∀ pre post : List RawStream, ∀ bad : RawStream,
      (pre.all fun raw => raw.name.isSome) = true →
      (pre.all asciiType) = true →
      bad.name = none →
      start_all_streams env base (pre ++ bad :: post) =
        StartupOutcome.aborted (pre.filterMap (startAllOutcome env base)) ∧
      main_exit_code (start_all_streams env base (pre ++ bad :: post)) = some 1) := by
  constructor
  · intro raws h _ha
    exact start_all_streams_completed env base raws h
  · intro pre post bad h _ha hbad
    refine ⟨start_all_streams_aborted env base post bad hbad pre h, ?_⟩
    rw [start_all_streams_aborted env base post bad hbad pre h]
    rfl

/-- C1 witness: with every spawn succeeding, the lone well-formed `cam1`
declaration completes and is registered; inserting a name-less entry after
`cam1` and before a well-formed `cam5` aborts startup with exit status 1,
keeping `cam1`'s registration and never attempting `cam5`. -/
theorem start_all_streams_registers_witness :
    start_all_streams (fun _ => some { exited := false, gracefulStop := true })
        "rtsp://mediamtx:8554" [cam1Raw] =
      StartupOutcome.completed ([cam1Raw].filterMap (startAllOutcome
        (fun _ => some { exited := false, gracefulStop := true }) "rtsp://mediamtx:8554")) ∧
    start_all_streams (fun _ => some { exited := false, gracefulStop := true })
        "rtsp://mediamtx:8554" ([cam1Raw] ++ namelessRaw :: [cam5Raw]) =
      StartupOutcome.aborted ([cam1Raw].filterMap (startAllOutcome
        (fun _ => some { exited := false, gracefulStop := true }) "rtsp://mediamtx:8554")) ∧
    main_exit_code (start_all_streams (fun _ => some { exited := false, gracefulStop := true })
        "rtsp://mediamtx:8554" ([cam1Raw] ++ namelessRaw :: [cam5Raw])) = some 1 := by
  refine ⟨?_, ?_, ?_⟩
  · exact (start_all_streams_registers_iff_start_succeeded
      (fun _ => some { exited := false, gracefulStop := true }) "rtsp://mediamtx:8554").1
      [cam1Raw] (by decide) (by decide)
  · exact ((start_all_streams_registers_iff_start_succeeded
      (fun _ => some { exited := false, gracefulStop := true }) "rtsp://mediamtx:8554").2
      [cam1Raw] [cam5Raw] namelessRaw (by decide) (by decide) rfl).1
  · exact ((start_all_streams_registers_iff_start_succeeded
      (fun _ => some { exited := false, gracefulStop := true }) "rtsp://mediamtx:8554").2
      [cam1Raw] [cam5Raw] namelessRaw (by decide) (by decide) rfl).2

end TestStreamer
